import Mathlib

/-!
# Verification of `wallet-cli` (src/index.js)

A shallow embedding of the wallet CLI's source into Lean 4, together with
theorems settling the specification's claims about it.

The program is a thin CLI over an external blockchain RPC library.  External
collaborators (the RPC endpoint, the signing library, the filesystem) are
modelled as explicit parameters: an airdrop endpoint is a function from the
call index to its outcome, the keypair file is an `Option KeypairData`
threaded through the operations, and the signing library's key derivation is
a parameter `derive : List Nat → String`.  Every definition mirrors the
corresponding JavaScript function line by line.
-/

namespace WalletCli

/-- JavaScript `String.prototype.includes`: substring containment. -/
def jsIncludes (s pat : String) : Bool := decide (pat.data <:+: s.data)

/-- `LAMPORTS_PER_SOL` from `@solana/web3.js`: the fixed SOL→lamports multiplier. -/
def LAMPORTS_PER_SOL : ℚ := 1000000000

/-- Default `maxRetries` of `requestAirdropWithRetry` (src/index.js line 35). -/
def maxRetriesDefault : Nat := 5

/-- The exhaustion error message thrown at src/index.js line 57. -/
def exhaustedMsg : String := "Max retries exceeded for airdrop request."

/-- The rate-limit signal matched at src/index.js line 46. -/
def rateLimitSignal : String := "429"

/-- Error printed by `loadKeypair` when the keypair file is missing (line 24). -/
def noKeypairMsg : String :=
  "No keypair found. Please generate a keypair first using \"wallet generate-keypair\"."

/-- Content of the keypair file: the JSON record `{publicKey, secretKey}`
written at src/index.js line 18. -/
structure KeypairData where
  publicKey : String
  secretKey : List Nat
deriving DecidableEq

/-- Outcome of one airdrop attempt: the `try` block at lines 42-44
(`requestAirdrop` followed by `confirmTransaction`) either resolves with a
signature or rejects with an error message. -/
inductive AirdropResponse where
  | success (signature : String)
  | failure (message : String)
deriving DecidableEq

/-- An attempt outcome that the `catch` at line 46 classifies as rate-limited:
a failure whose message contains `'429'`. -/
def AirdropResponse.isRateLimited : AirdropResponse → Bool
  | .success _ => false
  | .failure msg => jsIncludes msg rateLimitSignal

/-- Observable outcome of `requestAirdropWithRetry`: the returned value or
thrown error, the number of endpoint attempts made, and the list of delays
slept (milliseconds, in order). -/
structure RetryResult where
  result : Except String String
  attempts : Nat
  delays : List Nat

/-- The `while (retryCount < maxRetries)` loop of src/index.js lines 40-55,
as structural recursion on the remaining iterations
`fuel = maxRetries - retryCount`.  `endpoint n` is the outcome of the n-th
attempt (0-indexed).  The keypair-file state `fs` is threaded through every
iteration: the loop body performs network calls and a sleep only, so each
branch passes `fs` along unchanged. -/
def retryLoop (endpoint : Nat → AirdropResponse) :
    Nat → Nat → Option KeypairData → RetryResult × Option KeypairData
  | _retryCount, 0, fs => (⟨.error exhaustedMsg, 0, []⟩, fs)
  | retryCount, fuel + 1, fs =>
    match endpoint retryCount with
    | .success sig => (⟨.ok sig, 1, []⟩, fs)
    | .failure msg =>
      if jsIncludes msg rateLimitSignal then
        let delay := 2 ^ retryCount * 1000
        let r := retryLoop endpoint (retryCount + 1) fuel fs
        (⟨r.1.result, r.1.attempts + 1, delay :: r.1.delays⟩, r.2)
      else
        (⟨.error msg, 1, []⟩, fs)

/-- `requestAirdropWithRetry` (src/index.js lines 35-58): run the retry loop
from `retryCount = 0`. -/
def requestAirdropWithRetry (endpoint : Nat → AirdropResponse)
    (maxRetries : Nat) (fs : Option KeypairData) :
    RetryResult × Option KeypairData :=
  retryLoop endpoint 0 maxRetries fs

/-- The external signing library's keypair object: a public key (base58
string) together with the secret key bytes.  `Keypair.generate` of the
library produces such a value; the public key of a generated keypair is a
function of its secret key (ed25519 derivation), which we keep abstract as
the parameter `derive`. -/
structure LibKeypair where
  publicKeyBase58 : String
  secretKey : List Nat
deriving DecidableEq

/-- The external library's `Keypair.fromSecretKey` (used at src/index.js
line 30): rebuild the keypair from its secret key bytes, deriving the public
key.  `derive` is the library's secret-to-public derivation. -/
def fromSecretKey (derive : List Nat → String) (sk : List Nat) : LibKeypair :=
  ⟨derive sk, sk⟩

/-- `generateKeypair` (src/index.js lines 12-20): serialise the freshly
generated keypair `kp` as `{publicKey, secretKey}`, overwrite the keypair
file with it, and return the record.  The JSON round-trip through
`JSON.stringify`/`JSON.parse` is the identity on this record shape, so the
file state holds the record itself. -/
def generateKeypair (kp : LibKeypair) (_fs : Option KeypairData) :
    KeypairData × Option KeypairData :=
  let keypairData : KeypairData := ⟨kp.publicKeyBase58, kp.secretKey⟩
  (keypairData, some keypairData)

/-- `loadKeypair` (src/index.js lines 22-33): if the keypair file does not
exist, print `noKeypairMsg` and `process.exit(1)` (modelled as the `error`
branch); otherwise parse the file and rebuild the keypair from its
`secretKey` field via `fromSecretKey`. -/
def loadKeypair (derive : List Nat → String) (fs : Option KeypairData) :
    Except String LibKeypair :=
  match fs with
  | none => .error noKeypairMsg
  | some kd => .ok (fromSecretKey derive kd.secretKey)

/-- The value commander hands an action for `--amount` parsed with
`parseFloat`: `undefined` when the flag is absent, `NaN` when the text does
not parse, a number otherwise. -/
inductive JSAmount where
  | undef
  | nan
  | num (q : ℚ)
deriving DecidableEq

/-- JavaScript truthiness test `!amount` on the parsed amount:
`undefined`, `NaN` and `0` are falsy. -/
def JSAmount.falsy : JSAmount → Bool
  | .undef => true
  | .nan => true
  | .num q => decide (q = 0)

/-- JavaScript `isNaN(amount)` (with `undefined` coercing to `NaN`). -/
def JSAmount.isNaNb : JSAmount → Bool
  | .num _ => false
  | _ => true

/-- Whether the supplied flag value parsed as a number. -/
def JSAmount.parsesAsNumber : JSAmount → Bool
  | .num _ => true
  | _ => false

/-- Numeric value of a parsed amount (only used on the `num` branch, after
validation has ruled the others out). -/
def JSAmount.toVal : JSAmount → ℚ
  | .num q => q
  | _ => 0

/-- JavaScript truthiness test on the `--to` option value: absent or the
empty string is falsy. -/
def jsStrFalsy : Option String → Bool
  | none => true
  | some s => decide (s = "")

/-- Result of `sendSol` (src/index.js lines 60-87) together with its
observable effects, in source order: the returned value or thrown error,
whether `SystemProgram.transfer` was added to the transaction (line 70),
whether the transaction was signed (line 82), how many times
`sendTransaction` was called (line 84), and how many RPC calls were made in
total (`getBalance`, `getLatestBlockhash`, `sendTransaction`,
`confirmTransaction`). -/
structure SendOutcome where
  result : Except String String
  constructedTransfer : Bool
  signed : Bool
  sendAttempts : Nat
  networkCalls : Nat

/-- `sendSol` (src/index.js lines 60-87).  The external RPC collaborators are
parameters: `balanceLamports` is the resolved `getBalance` result,
`getBlockhash`, `sendTx` and `confirmTx` the outcomes of the later calls.
The balance guard at lines 66-68 throws `'Insufficient funds.'` before the
transfer instruction is constructed. -/
def sendSol (balanceLamports : ℚ) (getBlockhash : Except String String)
    (sendTx : Except String String) (confirmTx : Except String Unit)
    (amountInSol : ℚ) : SendOutcome :=
  let amountInLamports := amountInSol * LAMPORTS_PER_SOL
  if balanceLamports < amountInLamports then
    ⟨.error "Insufficient funds.", false, false, 0, 1⟩
  else
    match getBlockhash with
    | .error e => ⟨.error e, true, false, 0, 2⟩
    | .ok _bh =>
      match sendTx with
      | .error e => ⟨.error e, true, true, 1, 3⟩
      | .ok sig =>
        match confirmTx with
        | .error e => ⟨.error e, true, true, 1, 4⟩
        | .ok _ => ⟨.ok sig, true, true, 1, 4⟩

/-- `getBalance` (src/index.js lines 89-93): lamports divided by the fixed
multiplier. -/
def getBalance (balanceLamports : ℚ) : ℚ := balanceLamports / LAMPORTS_PER_SOL

/-- One entry of `getConfirmedSignaturesForAddress2`'s response. -/
structure SignatureInfo where
  signature : String
deriving DecidableEq

/-- The `meta.status` field of a confirmed transaction, a record with an
error indicator (`null` for success). -/
structure TxStatus where
  err : Option String
deriving DecidableEq

/-- The fields of `getConfirmedTransaction`'s response that the program
reads. -/
structure ConfirmedTx where
  slot : Nat
  blockTime : Int
  status : TxStatus
deriving DecidableEq

/-- The record built for each transaction at src/index.js lines 101-106:
exactly the fields `{signature, slot, blockTime, status}`. -/
structure TransactionRecord where
  signature : String
  slot : Nat
  blockTime : Int
  status : TxStatus
deriving DecidableEq

/-- `getTransactionHistory` (src/index.js lines 95-110): fetch signatures
with `{limit: 10}` (`fetchSigs` is the external
`getConfirmedSignaturesForAddress2`, applied to the requested limit), then
map each to a `{signature, slot, blockTime, status}` record using the
external `getConfirmedTransaction` (`getTx`). -/
def getTransactionHistory (fetchSigs : Nat → List SignatureInfo)
    (getTx : String → ConfirmedTx) : List TransactionRecord :=
  (fetchSigs 10).map fun si =>
    let tx := getTx si.signature
    ⟨si.signature, tx.slot, tx.blockTime, tx.status⟩

/-- Observable outcome of one CLI command action: the exit code if
`process.exit` was called, the number of network calls made, the messages
printed to the error stream, and whether the retrying airdrop requester was
invoked. -/
structure CmdOutcome where
  exitCode : Option Nat
  networkCalls : Nat
  errOutput : List String
  invokedRequester : Bool

/-- The `airdrop` command action (src/index.js lines 121-142): validate
`--amount` with `!amount || isNaN(amount)` (exit 1 on failure), load the
keypair (exit 1 with `noKeypairMsg` when the file is missing), then invoke
`requestAirdropWithRetry` with the default maximum of 5 retries; an airdrop
failure is printed without an explicit exit code. -/
def airdropAction (amount : JSAmount) (fsState : Option KeypairData)
    (endpoint : Nat → AirdropResponse) (derive : List Nat → String) :
    CmdOutcome :=
  if amount.falsy || amount.isNaNb then
    ⟨some 1, 0, ["Invalid amount specified."], false⟩
  else
    match loadKeypair derive fsState with
    | .error msg => ⟨some 1, 0, [msg], false⟩
    | .ok _kp =>
      let r := (requestAirdropWithRetry endpoint maxRetriesDefault fsState).1
      match r.result with
      | .ok _sig => ⟨none, r.attempts, [], true⟩
      | .error e => ⟨none, r.attempts, ["Airdrop failed: " ++ e], true⟩

/-- The `send-sol` command action (src/index.js lines 144-165): validate
`--to` and `--amount` (exit 1 on failure), load the keypair, then call
`sendSol`; a transfer failure is printed without an explicit exit code. -/
def sendSolAction (toArg : Option String) (amount : JSAmount)
    (fsState : Option KeypairData) (derive : List Nat → String)
    (balanceLamports : ℚ) (getBlockhash sendTx : Except String String)
    (confirmTx : Except String Unit) : CmdOutcome :=
  if jsStrFalsy toArg || amount.falsy || amount.isNaNb then
    ⟨some 1, 0, ["Invalid recipient or amount specified."], false⟩
  else
    match loadKeypair derive fsState with
    | .error msg => ⟨some 1, 0, [msg], false⟩
    | .ok _kp =>
      let r := sendSol balanceLamports getBlockhash sendTx confirmTx amount.toVal
      match r.result with
      | .ok _sig => ⟨none, r.networkCalls, [], false⟩
      | .error e => ⟨none, r.networkCalls, ["Transfer failed: " ++ e], false⟩

/-- The `balance` command action (src/index.js lines 167-179): load the
keypair, then make the single balance query (`balanceRes` is the external
call's outcome); a failure is printed without an explicit exit code. -/
def balanceAction (fsState : Option KeypairData) (derive : List Nat → String)
    (balanceRes : Except String ℚ) : CmdOutcome :=
  match loadKeypair derive fsState with
  | .error msg => ⟨some 1, 0, [msg], false⟩
  | .ok _kp =>
    match balanceRes with
    | .ok _b => ⟨none, 1, [], false⟩
    | .error e => ⟨none, 1, ["Failed to get balance: " ++ e], false⟩

/-- The `history` command action (src/index.js lines 181-199): load the
keypair, then fetch the signature list (one call) and one
`getConfirmedTransaction` per signature. -/
def historyAction (fsState : Option KeypairData) (derive : List Nat → String)
    (fetchSigs : Nat → List SignatureInfo) (getTx : String → ConfirmedTx) :
    CmdOutcome :=
  match loadKeypair derive fsState with
  | .error msg => ⟨some 1, 0, [msg], false⟩
  | .ok _kp =>
    let txs := getTransactionHistory fetchSigs getTx
    ⟨none, 1 + txs.length, [], false⟩

/-- When every attempt is a rate-limited failure, the loop runs out of fuel
making one attempt and one sleep per unit of fuel. -/
lemma retryLoop_all_rate_limited (endpoint : Nat → AirdropResponse)
    (h : ∀ n, (endpoint n).isRateLimited = true) :
    ∀ fuel retryCount fs, retryLoop endpoint retryCount fuel fs =
      (⟨.error exhaustedMsg, fuel,
        (List.range fuel).map (fun i => 2 ^ (retryCount + i) * 1000)⟩, fs) := by
  intro fuel
  induction fuel with
  | zero => intro rc fs; rfl
  | succ n ih =>
    intro rc fs
    have hrl := h rc
    unfold retryLoop
    cases hend : endpoint rc with
    | success sig => rw [hend] at hrl; simp [AirdropResponse.isRateLimited] at hrl
    | failure msg =>
      rw [hend] at hrl
      simp only [AirdropResponse.isRateLimited] at hrl
      simp only [hrl, if_true, ih (rc + 1) fs]
      simp only [Prod.mk.injEq, RetryResult.mk.injEq]
      refine ⟨⟨trivial, trivial, ?_⟩, trivial⟩
      show 2 ^ rc * 1000 :: (List.range n).map (fun i => 2 ^ (rc + 1 + i) * 1000) =
        (List.range (n + 1)).map (fun i => 2 ^ (rc + i) * 1000)
      rw [List.range_succ_eq_map, List.map_cons, List.map_map]
      refine congrArg₂ _ (by ring_nf) ?_
      refine List.map_congr_left ?_
      intro i _
      show 2 ^ (rc + 1 + i) * 1000 = 2 ^ (rc + (i + 1)) * 1000
      ring_nf

/-- When the first `k` attempts (from `retryCount`) are rate-limited failures
and attempt `retryCount + k` succeeds, the loop returns the successful
signature after `k + 1` attempts and `k` sleeps. -/
lemma retryLoop_succeeds_after (endpoint : Nat → AirdropResponse) :
    ∀ fuel k retryCount fs sig, k < fuel →
      (∀ i, i < k → (endpoint (retryCount + i)).isRateLimited = true) →
      endpoint (retryCount + k) = .success sig →
      retryLoop endpoint retryCount fuel fs =
        (⟨.ok sig, k + 1,
          (List.range k).map (fun i => 2 ^ (retryCount + i) * 1000)⟩, fs) := by
  intro fuel
  induction fuel with
  | zero => intro k rc fs sig hk; omega
  | succ n ih =>
    intro k rc fs sig hk hfail hsucc
    unfold retryLoop
    match k with
    | 0 =>
      rw [Nat.add_zero] at hsucc
      simp [hsucc]
    | k' + 1 =>
      have h0 : (endpoint (rc + 0)).isRateLimited = true := hfail 0 (Nat.succ_pos k')
      rw [Nat.add_zero] at h0
      cases hend : endpoint rc with
      | success sig' => rw [hend] at h0; simp [AirdropResponse.isRateLimited] at h0
      | failure msg =>
        rw [hend] at h0
        simp only [AirdropResponse.isRateLimited] at h0
        have hrec := ih k' (rc + 1) fs sig (by omega)
          (fun i hi => by
            have := hfail (i + 1) (by omega)
            show (endpoint (rc + 1 + i)).isRateLimited = true
            have harg : rc + 1 + i = rc + (i + 1) := by ring
            rw [harg]; exact this)
          (by
            have harg : rc + 1 + k' = rc + (k' + 1) := by ring
            rw [harg]; exact hsucc)
        simp only [h0, if_true, hrec]
        simp only [Prod.mk.injEq, RetryResult.mk.injEq]
        refine ⟨⟨trivial, trivial, ?_⟩, trivial⟩
        show 2 ^ rc * 1000 :: (List.range k').map (fun i => 2 ^ (rc + 1 + i) * 1000) =
          (List.range (k' + 1)).map (fun i => 2 ^ (rc + i) * 1000)
        rw [List.range_succ_eq_map, List.map_cons, List.map_map]
        refine congrArg₂ _ (by ring_nf) ?_
        refine List.map_congr_left ?_
        intro i _
        show 2 ^ (rc + 1 + i) * 1000 = 2 ^ (rc + (i + 1)) * 1000
        ring_nf

/-- The retry loop never touches the keypair-file state. -/
lemma retryLoop_state_invariant (endpoint : Nat → AirdropResponse) :
    ∀ fuel retryCount fs, (retryLoop endpoint retryCount fuel fs).2 = fs := by
  intro fuel
  induction fuel with
  | zero => intro rc fs; rfl
  | succ n ih =>
    intro rc fs
    unfold retryLoop
    cases endpoint rc with
    | success sig => rfl
    | failure msg =>
      by_cases hb : jsIncludes msg rateLimitSignal = true
      · simp only [hb, if_true]; exact ih (rc + 1) fs
      · rw [Bool.not_eq_true] at hb
        simp [hb]

/-- C1: when the funding endpoint fails with a rate-limit error on every
call, `requestAirdropWithRetry` makes exactly `maxRetries` attempts and then
fails with the `'Max retries exceeded'` exhaustion error, which is distinct
from every rate-limit error message (no rate-limit message can equal it,
since the exhaustion message does not contain `'429'`). -/
theorem claim_C1_exhaustion_after_max_retries (endpoint : Nat → AirdropResponse)
    (maxRetries : Nat) (fs : Option KeypairData)
    (h : ∀ n, (endpoint n).isRateLimited = true) :
    (requestAirdropWithRetry endpoint maxRetries fs).1.attempts = maxRetries ∧
    (requestAirdropWithRetry endpoint maxRetries fs).1.result =
      .error exhaustedMsg ∧
    ∀ n msg, endpoint n = .failure msg → msg ≠ exhaustedMsg := by
  have hrw := retryLoop_all_rate_limited endpoint h maxRetries 0 fs
  refine ⟨?_, ?_, ?_⟩
  · show (retryLoop endpoint 0 maxRetries fs).1.attempts = maxRetries
    rw [hrw]
  · show (retryLoop endpoint 0 maxRetries fs).1.result = .error exhaustedMsg
    rw [hrw]
  · intro n msg hmsg heq
    have hn := h n
    rw [hmsg] at hn
    simp only [AirdropResponse.isRateLimited] at hn
    rw [heq] at hn
    have hfalse : jsIncludes exhaustedMsg rateLimitSignal = false := by decide
    rw [hfalse] at hn
    exact Bool.false_ne_true hn

theorem claim_C1_witness :
    (requestAirdropWithRetry (fun _ => .failure "429 Too Many Requests") 2
      none).1.attempts = 2 ∧
    (requestAirdropWithRetry (fun _ => .failure "429 Too Many Requests") 2
      none).1.result = .error exhaustedMsg ∧
    ∀ (_ : Nat) (msg : String),
      AirdropResponse.failure "429 Too Many Requests" = .failure msg →
        msg ≠ exhaustedMsg :=
  claim_C1_exhaustion_after_max_retries
    (fun _ => .failure "429 Too Many Requests") 2 none
    (fun _ =>
      (by decide :
        (AirdropResponse.failure "429 Too Many Requests").isRateLimited = true))

/-- C2: if the endpoint fails rate-limited on the first `k` calls
(`k < maxRetries`) and succeeds on call `k + 1`, then
`requestAirdropWithRetry` returns the successful call's signature after
exactly `k + 1` attempts, having slept exactly the delays
`2^0*1000, 2^1*1000, …, 2^(k-1)*1000` milliseconds between consecutive
attempts (the delay before 0-indexed attempt `i + 1` is `2^i * 1000`). -/
theorem claim_C2_success_after_k_rate_limits (endpoint : Nat → AirdropResponse)
    (maxRetries k : Nat) (fs : Option KeypairData) (sig : String)
    (hk : k < maxRetries)
    (hfail : ∀ i, i < k → (endpoint i).isRateLimited = true)
    (hsucc : endpoint k = .success sig) :
    (requestAirdropWithRetry endpoint maxRetries fs).1.result = .ok sig ∧
    (requestAirdropWithRetry endpoint maxRetries fs).1.attempts = k + 1 ∧
    (requestAirdropWithRetry endpoint maxRetries fs).1.delays =
      (List.range k).map (fun i => 2 ^ i * 1000) := by
  have hrw := retryLoop_succeeds_after endpoint maxRetries k 0 fs sig hk
    (fun i hi => by simpa using hfail i hi) (by simpa using hsucc)
  refine ⟨?_, ?_, ?_⟩
  · show (retryLoop endpoint 0 maxRetries fs).1.result = .ok sig
    rw [hrw]
  · show (retryLoop endpoint 0 maxRetries fs).1.attempts = k + 1
    rw [hrw]
  · show (retryLoop endpoint 0 maxRetries fs).1.delays = _
    rw [hrw]
    simp

theorem claim_C2_witness :
    (requestAirdropWithRetry
      (fun n => if n < 2 then .failure "429" else .success "txsig") 5
      none).1.result = .ok "txsig" ∧
    (requestAirdropWithRetry
      (fun n => if n < 2 then .failure "429" else .success "txsig") 5
      none).1.attempts = 2 + 1 ∧
    (requestAirdropWithRetry
      (fun n => if n < 2 then .failure "429" else .success "txsig") 5
      none).1.delays = (List.range 2).map (fun i => 2 ^ i * 1000) :=
  claim_C2_success_after_k_rate_limits
    (fun n => if n < 2 then .failure "429" else .success "txsig") 5 2 none
    "txsig" (by decide) (by decide) (by decide)

/-- C3: if the endpoint's first call fails with an error whose message does
not contain `'429'`, `requestAirdropWithRetry` propagates that same error
immediately: exactly one attempt, zero retries, no delay slept. -/
theorem claim_C3_fatal_error_no_retry (endpoint : Nat → AirdropResponse)
    (maxRetries : Nat) (fs : Option KeypairData) (msg : String)
    (hm : 0 < maxRetries)
    (hfail : endpoint 0 = .failure msg)
    (hnot : jsIncludes msg rateLimitSignal = false) :
    (requestAirdropWithRetry endpoint maxRetries fs).1.result = .error msg ∧
    (requestAirdropWithRetry endpoint maxRetries fs).1.attempts = 1 ∧
    (requestAirdropWithRetry endpoint maxRetries fs).1.delays = [] := by
  match maxRetries, hm with
  | m + 1, _ =>
    show (retryLoop endpoint 0 (m + 1) fs).1.result = _ ∧
      (retryLoop endpoint 0 (m + 1) fs).1.attempts = 1 ∧
      (retryLoop endpoint 0 (m + 1) fs).1.delays = []
    unfold retryLoop
    simp [hfail, hnot]

theorem claim_C3_witness :
    (requestAirdropWithRetry (fun _ => .failure "connection refused") 5
      none).1.result = .error "connection refused" ∧
    (requestAirdropWithRetry (fun _ => .failure "connection refused") 5
      none).1.attempts = 1 ∧
    (requestAirdropWithRetry (fun _ => .failure "connection refused") 5
      none).1.delays = [] :=
  claim_C3_fatal_error_no_retry (fun _ => .failure "connection refused") 5
    none "connection refused" (by decide) rfl (by decide)

/-- C10: when every attempt fails rate-limited, a delay is slept after every
failed attempt including the last one: `maxRetries` sleeps in total, the
final one of `2^(maxRetries-1) * 1000` milliseconds, before the exhaustion
error is raised. -/
theorem claim_C10_sleeps_after_final_attempt (endpoint : Nat → AirdropResponse)
    (maxRetries : Nat) (fs : Option KeypairData)
    (h : ∀ n, (endpoint n).isRateLimited = true) (hm : 0 < maxRetries) :
    (requestAirdropWithRetry endpoint maxRetries fs).1.delays =
      (List.range maxRetries).map (fun i => 2 ^ i * 1000) ∧
    (requestAirdropWithRetry endpoint maxRetries fs).1.delays.length =
      maxRetries ∧
    (requestAirdropWithRetry endpoint maxRetries fs).1.delays.getLast? =
      some (2 ^ (maxRetries - 1) * 1000) := by
  have hrw := retryLoop_all_rate_limited endpoint h maxRetries 0 fs
  have hdelays : (requestAirdropWithRetry endpoint maxRetries fs).1.delays =
      (List.range maxRetries).map (fun i => 2 ^ i * 1000) := by
    show (retryLoop endpoint 0 maxRetries fs).1.delays = _
    rw [hrw]
    simp
  refine ⟨hdelays, ?_, ?_⟩
  · rw [hdelays, List.length_map, List.length_range]
  · rw [hdelays]
    match maxRetries, hm with
    | m + 1, _ =>
      rw [List.range_succ, List.map_append]
      simp

theorem claim_C10_witness :
    (requestAirdropWithRetry (fun _ => .failure "HTTP 429") 3
      none).1.delays = (List.range 3).map (fun i => 2 ^ i * 1000) ∧
    (requestAirdropWithRetry (fun _ => .failure "HTTP 429") 3
      none).1.delays.length = 3 ∧
    (requestAirdropWithRetry (fun _ => .failure "HTTP 429") 3
      none).1.delays.getLast? = some (2 ^ (3 - 1) * 1000) :=
  claim_C10_sleeps_after_final_attempt (fun _ => .failure "HTTP 429") 3 none
    (fun _ =>
      (by decide : (AirdropResponse.failure "HTTP 429").isRateLimited = true))
    (by decide)

/-- C8: `requestAirdropWithRetry` never mutates local persistent state: the
keypair-file state threaded through the whole retry loop is returned
unchanged, whatever the endpoint does and however many retries occur. -/
theorem claim_C8_no_local_state_mutation (endpoint : Nat → AirdropResponse)
    (maxRetries : Nat) (fs : Option KeypairData) :
    (requestAirdropWithRetry endpoint maxRetries fs).2 = fs :=
  retryLoop_state_invariant endpoint maxRetries 0 fs

/-- C5: generating a keypair (persisting `{publicKey, secretKey}` to the
keypair file) and then loading it yields a keypair identical to the
generated one.  The hypothesis is the external signing library's contract:
the public key of a generated keypair is the one derived from its secret
key, so `fromSecretKey` inverts generation. -/
theorem claim_C5_generate_load_roundtrip (derive : List Nat → String)
    (kp : LibKeypair) (fs : Option KeypairData)
    (hderive : derive kp.secretKey = kp.publicKeyBase58) :
    loadKeypair derive (generateKeypair kp fs).2 = .ok kp ∧
    (generateKeypair kp fs).1 = ⟨kp.publicKeyBase58, kp.secretKey⟩ := by
  cases kp with
  | mk pk sk =>
    simp only [LibKeypair.publicKeyBase58, LibKeypair.secretKey] at hderive
    constructor
    · show Except.ok (fromSecretKey derive sk) = _
      rw [fromSecretKey, hderive]
    · rfl

theorem claim_C5_witness :
    loadKeypair (fun _ => "PK") (generateKeypair ⟨"PK", [1, 2, 3]⟩ none).2 =
      .ok ⟨"PK", [1, 2, 3]⟩ ∧
    (generateKeypair ⟨"PK", [1, 2, 3]⟩ none).1 = ⟨"PK", [1, 2, 3]⟩ :=
  claim_C5_generate_load_roundtrip (fun _ => "PK") ⟨"PK", [1, 2, 3]⟩ none rfl

/-- C6: every command that requires a keypair (airdrop, send-sol, balance,
history), invoked with valid CLI arguments while the keypair file is
missing, prints the descriptive `noKeypairMsg` error, exits with status 1,
and makes zero network calls. -/
theorem claim_C6_missing_keypair_fails_before_network (amount : JSAmount)
    (toArg : Option String) (endpoint : Nat → AirdropResponse)
    (derive : List Nat → String) (balanceLamports : ℚ)
    (getBlockhash sendTx : Except String String)
    (confirmTx : Except String Unit) (balanceRes : Except String ℚ)
    (fetchSigs : Nat → List SignatureInfo) (getTx : String → ConfirmedTx)
    (hAmount : amount.falsy = false) (hNaN : amount.isNaNb = false)
    (hTo : jsStrFalsy toArg = false) :
    airdropAction amount none endpoint derive =
      ⟨some 1, 0, [noKeypairMsg], false⟩ ∧
    sendSolAction toArg amount none derive balanceLamports getBlockhash
      sendTx confirmTx = ⟨some 1, 0, [noKeypairMsg], false⟩ ∧
    balanceAction none derive balanceRes =
      ⟨some 1, 0, [noKeypairMsg], false⟩ ∧
    historyAction none derive fetchSigs getTx =
      ⟨some 1, 0, [noKeypairMsg], false⟩ := by
  refine ⟨?_, ?_, ?_, ?_⟩ <;>
    simp [airdropAction, sendSolAction, balanceAction, historyAction,
      loadKeypair, hAmount, hNaN, hTo]

theorem claim_C6_witness :
    airdropAction (.num 1) none (fun _ => .success "s") (fun _ => "pk") =
      ⟨some 1, 0, [noKeypairMsg], false⟩ ∧
    sendSolAction (some "addr") (.num 1) none (fun _ => "pk") 0 (.ok "bh")
      (.ok "s") (.ok ()) = ⟨some 1, 0, [noKeypairMsg], false⟩ ∧
    balanceAction none (fun _ => "pk") (.ok 0) =
      ⟨some 1, 0, [noKeypairMsg], false⟩ ∧
    historyAction none (fun _ => "pk") (fun _ => []) (fun _ => ⟨0, 0, ⟨none⟩⟩) =
      ⟨some 1, 0, [noKeypairMsg], false⟩ :=
  claim_C6_missing_keypair_fails_before_network (.num 1) (some "addr")
    (fun _ => .success "s") (fun _ => "pk") 0 (.ok "bh") (.ok "s") (.ok ())
    (.ok 0) (fun _ => []) (fun _ => ⟨0, 0, ⟨none⟩⟩)
    (by decide) rfl rfl

/-- C7: the history operation requests at most the 10 most recent confirmed
signatures (the fetch is made with limit 10, and the collaborator honours
its limit), so the returned list has length at most 10, and every returned
record consists exactly of the fields `{signature, slot, blockTime, status}`
of the corresponding confirmed transaction. -/
theorem claim_C7_history_at_most_ten (fetchSigs : Nat → List SignatureInfo)
    (getTx : String → ConfirmedTx)
    (hlimit : ∀ limit, (fetchSigs limit).length ≤ limit) :
    (getTransactionHistory fetchSigs getTx).length ≤ 10 ∧
    ∀ r ∈ getTransactionHistory fetchSigs getTx,
      r = ⟨r.signature, (getTx r.signature).slot,
        (getTx r.signature).blockTime, (getTx r.signature).status⟩ := by
  constructor
  · show ((fetchSigs 10).map _).length ≤ 10
    rw [List.length_map]
    exact hlimit 10
  · intro r hr
    rw [getTransactionHistory, List.mem_map] at hr
    obtain ⟨si, _, rfl⟩ := hr
    rfl

theorem claim_C7_witness :
    (getTransactionHistory (fun limit => List.take limit [⟨"s1"⟩, ⟨"s2"⟩])
      (fun _ => ⟨3, 7, ⟨none⟩⟩)).length ≤ 10 ∧
    ∀ r ∈ getTransactionHistory (fun limit => List.take limit [⟨"s1"⟩, ⟨"s2"⟩])
        (fun _ => ⟨3, 7, ⟨none⟩⟩),
      r = ⟨r.signature, 3, 7, ⟨none⟩⟩ :=
  claim_C7_history_at_most_ten (fun limit => List.take limit [⟨"s1"⟩, ⟨"s2"⟩])
    (fun _ => ⟨3, 7, ⟨none⟩⟩) (fun limit => List.length_take_le limit _)

/-- C9: when the sender's queried balance in lamports is strictly below the
requested amount times the lamports-per-SOL multiplier, `sendSol` fails with
`'Insufficient funds.'` before constructing, signing, or submitting any
transaction, and a single RPC call (the balance query) was made. -/
theorem claim_C9_insufficient_funds_no_send (balanceLamports : ℚ)
    (getBlockhash sendTx : Except String String) (confirmTx : Except String Unit)
    (amountInSol : ℚ)
    (h : balanceLamports < amountInSol * LAMPORTS_PER_SOL) :
    sendSol balanceLamports getBlockhash sendTx confirmTx amountInSol =
      ⟨.error "Insufficient funds.", false, false, 0, 1⟩ := by
  rw [sendSol.eq_def]
  simp [h]

theorem claim_C9_witness :
    sendSol 0 (.ok "bh") (.ok "sig") (.ok ()) 1 =
      ⟨.error "Insufficient funds.", false, false, 0, 1⟩ :=
  claim_C9_insufficient_funds_no_send 0 (.ok "bh") (.ok "sig") (.ok ()) 1
    (by norm_num [LAMPORTS_PER_SOL])

/-- C4 counterexample: the flag value `--amount 0` parses as a number, yet
the airdrop command exits with status 1 at argument validation (the check is
JavaScript truthiness `!amount`, and `0` is falsy) and never invokes the
retrying requester — even with the keypair file present. -/
theorem claim_C4_counterexample :
    JSAmount.parsesAsNumber (JSAmount.num 0) = true ∧
    (airdropAction (JSAmount.num 0) (some ⟨"pk", [1]⟩)
      (fun _ => .success "sig") (fun _ => "pk")).exitCode = some 1 ∧
    (airdropAction (JSAmount.num 0) (some ⟨"pk", [1]⟩)
      (fun _ => .success "sig") (fun _ => "pk")).invokedRequester = false := by
  refine ⟨rfl, ?_, ?_⟩ <;> rfl

/-- C4 amended: with the keypair file present, the airdrop command exits
with status 1 exactly when the `--amount` value is missing, does not parse
as a number, or parses to zero; for every value parsing to a nonzero number
it proceeds to request funding via the retrying airdrop requester. -/
theorem claim_C4_amended_amount_validation (amount : JSAmount)
    (fsState : Option KeypairData) (endpoint : Nat → AirdropResponse)
    (derive : List Nat → String) (kd : KeypairData)
    (hfs : fsState = some kd) :
    ((airdropAction amount fsState endpoint derive).exitCode = some 1 ↔
      (amount = .undef ∨ amount = .nan ∨ amount = .num 0)) ∧
    ((airdropAction amount fsState endpoint derive).invokedRequester = true ↔
      ¬(amount = .undef ∨ amount = .nan ∨ amount = .num 0)) := by
  subst hfs
  cases amount with
  | undef => simp [airdropAction, JSAmount.falsy, JSAmount.isNaNb]
  | nan => simp [airdropAction, JSAmount.falsy, JSAmount.isNaNb]
  | num q =>
    by_cases hq : q = 0
    · subst hq
      simp [airdropAction, JSAmount.falsy, JSAmount.isNaNb]
    · cases hres : (requestAirdropWithRetry endpoint maxRetriesDefault
          (some kd)).1.result with
      | ok sig =>
        simp [airdropAction, JSAmount.falsy, JSAmount.isNaNb, loadKeypair,
          hq, hres]
      | error e =>
        simp [airdropAction, JSAmount.falsy, JSAmount.isNaNb, loadKeypair,
          hq, hres]

theorem claim_C4_witness :
    ((airdropAction (.num 1) (some ⟨"pk", [1]⟩) (fun _ => .success "sig")
        (fun _ => "pk")).exitCode = some 1 ↔
      ((JSAmount.num 1) = .undef ∨ (JSAmount.num 1) = .nan ∨
        (JSAmount.num 1) = .num 0)) ∧
    ((airdropAction (.num 1) (some ⟨"pk", [1]⟩) (fun _ => .success "sig")
        (fun _ => "pk")).invokedRequester = true ↔
      ¬((JSAmount.num 1) = .undef ∨ (JSAmount.num 1) = .nan ∨
        (JSAmount.num 1) = .num 0)) :=
  claim_C4_amended_amount_validation (.num 1) (some ⟨"pk", [1]⟩)
    (fun _ => .success "sig") (fun _ => "pk") ⟨"pk", [1]⟩ rfl

end WalletCli
